import Mathlib

/-!
Verification of the abyssal-hunter real-time simulation engine.

The game's numeric state (positions, radii, ink, timestamps) is embedded as
exact rationals (`ℚ`); the few places where the source calls transcendental
host functions (`Math.cos`, `Math.sin`, `Math.atan2`) are embedded over `ℝ`
using Mathlib's real functions.  Each definition carries a comment naming the
source file and lines it translates.
-/

namespace AbyssalHunter

/-- Entity classification, from `config.ts` (`export type EntityType`). -/
inductive EntityType where
  | food
  | prey
  | predator
deriving DecidableEq, Repr

/- Constants from `config.ts` (`CONFIG`), given as exact rationals. -/
namespace CONFIG

def worldSize : ℚ := 4000
def startRadius : ℚ := 15
def baseSpeed : ℚ := 5.5
def dashSpeed : ℚ := 13
def maxInk : ℚ := 100
def inkCost : ℚ := 1.8
def inkRegen : ℚ := 0.45
def comboWindowMs : ℚ := 1800
def comboMaxMultiplier : ℕ := 8
def comboInkBonus : ℚ := 12

end CONFIG

/-! ## World-boundary handling (claim C2)

`Entity.update`, `src/src/game/Entity.ts` lines 149-153, ends with

    if (this.x < 0) this.x = CONFIG.worldSize;
    if (this.x > CONFIG.worldSize) this.x = 0;
    if (this.y < 0) this.y = CONFIG.worldSize;
    if (this.y > CONFIG.worldSize) this.y = 0;

applied per axis after position integration.  The two `if`s cannot both fire
(after the first sets `w`, `w > w` is false), so per axis the step is the
function below.

`Player.update`, `src/src/game/Player.ts` lines 152-154, instead ends with

    this.x = Math.max(0, Math.min(this.x, CONFIG.worldSize));
    this.y = Math.max(0, Math.min(this.y, CONFIG.worldSize));
-/

/-- Per-axis boundary step of `Entity.update` (Entity.ts lines 149-153). -/
def Entity.wrapCoord (w x : ℚ) : ℚ :=
  if x < 0 then w else if x > w then 0 else x

/-- Per-axis boundary step of `Player.update` (Player.ts lines 152-154). -/
def Player.clampCoord (w x : ℚ) : ℚ :=
  max 0 (min x w)

/-- C2 counterexample: the claim asserts the player wraps toroidally, so a
player coordinate taken below `0` would have to be relocated to `worldSize`.
The player boundary step of `Player.update` instead clamps `-1` to `0`. -/
theorem C2_counterexample :
    ¬ Player.clampCoord CONFIG.worldSize (-1) = CONFIG.worldSize := by
  norm_num [Player.clampCoord, CONFIG.worldSize]

/-- C2 amended: entities wrap toroidally (a coordinate below `0` is relocated
to `w`, one above `w` to `0`, in-range coordinates are untouched), but the
player is clamped to the closed interval `[0, w]` rather than wrapped. -/
theorem C2_amended (w x : ℚ) (hw : 0 < w) :
    (x < 0 → Entity.wrapCoord w x = w) ∧
    (x > w → Entity.wrapCoord w x = 0) ∧
    (0 ≤ x → x ≤ w → Entity.wrapCoord w x = x) ∧
    (x < 0 → Player.clampCoord w x = 0) ∧
    (x > w → Player.clampCoord w x = w) ∧
    (0 ≤ x → x ≤ w → Player.clampCoord w x = x) := by
  unfold Entity.wrapCoord Player.clampCoord
  refine ⟨fun h => by simp [h], fun h => ?_, fun h1 h2 => ?_,
    fun h => ?_, fun h => ?_, fun h1 h2 => ?_⟩
  · rw [if_neg (by linarith), if_pos h]
  · rw [if_neg (by linarith), if_neg (by linarith)]
  · rw [min_eq_left (by linarith : x ≤ w), max_eq_left (le_of_lt h)]
  · rw [min_eq_right (le_of_lt h), max_eq_right (le_of_lt hw)]
  · rw [min_eq_left h2, max_eq_right h1]

/-- C2 witness: concrete instance of `C2_amended` at `w = 4000`, `x = -1`. -/
theorem C2_witness :
    (0 : ℚ) < CONFIG.worldSize ∧
      Entity.wrapCoord CONFIG.worldSize (-1) = CONFIG.worldSize ∧
      Player.clampCoord CONFIG.worldSize (-1) = 0 :=
  ⟨by norm_num [CONFIG.worldSize],
   (C2_amended CONFIG.worldSize (-1) (by norm_num [CONFIG.worldSize])).1
     (by norm_num),
   (C2_amended CONFIG.worldSize (-1)
     (by norm_num [CONFIG.worldSize])).2.2.2.1 (by norm_num)⟩

/-! ## Boss phase state (claim C6)

From `class Boss` in the file that also holds the accessibility system
(`src/src/game/AccessibilitySystem.ts`, lines 805-899).  The fields below are
the ones `update`'s phase logic and `takeDamage` read or write; position,
speed, angle and the scripted abilities are omitted because the ability
callbacks of `BOSS_DEFINITIONS` (lines 1165-1260) only write `specialState`
and never touch `health`, `phase`, `enraged` or `active`.
-/

structure BossState where
  health : ℚ
  maxHealth : ℚ
  phase : ℕ
  enraged : Bool
  active : Bool
deriving DecidableEq, Repr

/-- Boss constructor (lines 826-856): full health, phase 1, not enraged. -/
def Boss.init (maxHealth : ℚ) : BossState :=
  { health := maxHealth, maxHealth := maxHealth, phase := 1,
    enraged := false, active := true }

/-- Phase portion of `Boss.update` (lines 858-867):

    if (!this.active) return;
    if (this.health / this.maxHealth < 0.33) { this.phase = 3; this.enraged = true; }
    else if (this.health / this.maxHealth < 0.66) { this.phase = 2; }

Note there is no `else` branch: with a health ratio of at least `0.66` the
phase keeps its previous value. -/
def Boss.update (b : BossState) : BossState :=
  if b.active = false then b
  else if b.health / b.maxHealth < 0.33 then { b with phase := 3, enraged := true }
  else if b.health / b.maxHealth < 0.66 then { b with phase := 2 }
  else b

/-- Source `Boss.takeDamage` (lines 893-899). -/
def Boss.takeDamage (amount : ℚ) (b : BossState) : BossState :=
  let h := b.health - amount
  if h ≤ 0 then { b with health := 0, active := false }
  else { b with health := h }

/-- Boss states reachable in the engine: constructed from a definition, then
any interleaving of update ticks and non-negative damage hits. -/
inductive Boss.Reachable (mh : ℚ) : BossState → Prop where
  | init : Boss.Reachable mh (Boss.init mh)
  | update {b} : Boss.Reachable mh b → Boss.Reachable mh (Boss.update b)
  | damage {b} (d : ℚ) : 0 ≤ d → Boss.Reachable mh b →
      Boss.Reachable mh (Boss.takeDamage d b)

/-- The function `Boss.update` never changes the `active` flag. -/
theorem Boss.update_active (b : BossState) : (Boss.update b).active = b.active := by
  unfold Boss.update
  split
  · rfl
  split
  · rfl
  split
  · rfl
  · rfl

/-- Inductive invariant for the boss phase machine: `maxHealth` is constant,
health never exceeds it, and phase/enraged can only be ahead of (never behind)
the current health ratio, because health never increases. -/
theorem Boss.reachable_inv {mh : ℚ} (hmh : 0 < mh) {b : BossState}
    (hb : Boss.Reachable mh b) :
    b.maxHealth = mh ∧ b.health ≤ mh ∧
    (b.enraged = true → b.health / mh < 0.33) ∧
    (b.phase = 3 → b.health / mh < 0.33) ∧
    (b.phase = 2 → b.health / mh < 0.66) ∧
    (b.phase = 1 ∨ b.phase = 2 ∨ b.phase = 3) ∧
    (b.enraged = true ↔ b.phase = 3) := by
  induction hb with
  | init => simp [Boss.init]
  | @update b0 hb ih =>
    obtain ⟨hmax, hle, henr, h3, h2, hph, hiff⟩ := ih
    unfold Boss.update
    rw [hmax]
    by_cases hact : b0.active = false
    · rw [if_pos hact]
      exact ⟨hmax, hle, henr, h3, h2, hph, hiff⟩
    · rw [if_neg hact]
      by_cases hr3 : b0.health / mh < 0.33
      · rw [if_pos hr3]
        exact ⟨rfl, hle, fun _ => hr3, fun _ => hr3,
          fun h => absurd h (by norm_num), Or.inr (Or.inr rfl), by simp⟩
      · rw [if_neg hr3]
        by_cases hr2 : b0.health / mh < 0.66
        · rw [if_pos hr2]
          have hbe : b0.enraged = false := by
            cases hbe' : b0.enraged with
            | false => rfl
            | true => exact absurd (henr hbe') hr3
          refine ⟨rfl, hle, fun he => absurd (henr he) hr3,
            fun h => absurd h (by norm_num), fun _ => hr2,
            Or.inr (Or.inl rfl), ?_⟩
          rw [hbe]
          simp
        · rw [if_neg hr2]
          exact ⟨hmax, hle, henr, h3, h2, hph, hiff⟩
  | @damage b0 d hd hb ih =>
    obtain ⟨hmax, hle, henr, h3, h2, hph, hiff⟩ := ih
    unfold Boss.takeDamage
    by_cases hz : b0.health - d ≤ 0
    · rw [if_pos hz]
      refine ⟨hmax, le_of_lt hmh, fun _ => ?_, fun _ => ?_, fun _ => ?_,
        hph, hiff⟩ <;> · show (0 : ℚ) / mh < _; rw [zero_div]; norm_num
    · rw [if_neg hz]
      have hred : (b0.health - d) / mh ≤ b0.health / mh :=
        (div_le_div_iff_of_pos_right hmh).mpr (sub_le_self b0.health hd)
      exact ⟨hmax, show b0.health - d ≤ mh by linarith,
        fun he => lt_of_le_of_lt hred (henr he),
        fun h => lt_of_le_of_lt hred (h3 h),
        fun h => lt_of_le_of_lt hred (h2 h), hph, hiff⟩

/-- C6: for every reachable boss state, after an update tick on a still-active
boss the phase is 3 iff the health ratio is below 0.33, phase is 2 iff the
ratio is in `[0.33, 0.66)`, phase is 1 iff the ratio is at least 0.66, and the
boss is enraged iff the phase is 3. -/
theorem C6_boss_phase {mh : ℚ} (hmh : 0 < mh) {b : BossState}
    (hb : Boss.Reachable mh b) (hact : (Boss.update b).active = true) :
    ((Boss.update b).phase = 3 ↔ (Boss.update b).health / mh < 0.33) ∧
    ((Boss.update b).phase = 2 ↔
      0.33 ≤ (Boss.update b).health / mh ∧ (Boss.update b).health / mh < 0.66) ∧
    ((Boss.update b).phase = 1 ↔ 0.66 ≤ (Boss.update b).health / mh) ∧
    ((Boss.update b).enraged = true ↔ (Boss.update b).phase = 3) := by
  obtain ⟨hmax, hle, henr, h3, h2, hph, hiff⟩ := Boss.reachable_inv hmh hb
  have hbact : b.active = true := by rw [← Boss.update_active]; exact hact
  have hfalse : ¬ b.active = false := by simp [hbact]
  unfold Boss.update
  rw [hmax, if_neg hfalse]
  by_cases hr3 : b.health / mh < 0.33
  · rw [if_pos hr3]
    dsimp only
    refine ⟨iff_of_true rfl hr3, ?_, ?_, by simp⟩
    · exact ⟨fun h => absurd h (by norm_num), fun h => absurd h.1 (not_le.mpr hr3)⟩
    · exact ⟨fun h => absurd h (by norm_num), fun hge => by linarith⟩
  · rw [if_neg hr3]
    by_cases hr2 : b.health / mh < 0.66
    · rw [if_pos hr2]
      have hbe : b.enraged = false := by
        cases hbe' : b.enraged with
        | false => rfl
        | true => exact absurd (henr hbe') hr3
      dsimp only
      refine ⟨⟨fun h => absurd h (by norm_num), fun hlt => absurd hlt hr3⟩,
        iff_of_true rfl ⟨le_of_not_lt hr3, hr2⟩,
        ⟨fun h => absurd h (by norm_num), fun hge => by linarith⟩, ?_⟩
      rw [hbe]
      simp
    · rw [if_neg hr2]
      have hp1 : b.phase = 1 := by
        rcases hph with h | h | h
        · exact h
        · exact absurd (h2 h) hr2
        · exact absurd (h3 h) hr3
      refine ⟨⟨fun h => by omega, fun hlt => absurd hlt hr3⟩,
        ⟨fun h => by omega, fun h => absurd h.2 hr2⟩,
        iff_of_true hp1 (le_of_not_lt hr2), hiff⟩

/-- C6 witness: the first boss definition (`leviathan`, `baseHealth = 500`)
after 400 damage and one update tick sits at health ratio `0.2`, so the
theorem places it in phase 3, enraged. -/
theorem C6_witness :
    ((Boss.update (Boss.takeDamage 400 (Boss.init 500))).phase = 3 ↔
      (Boss.update (Boss.takeDamage 400 (Boss.init 500))).health / 500 < 0.33) ∧
    ((Boss.update (Boss.takeDamage 400 (Boss.init 500))).phase = 2 ↔
      0.33 ≤ (Boss.update (Boss.takeDamage 400 (Boss.init 500))).health / 500 ∧
      (Boss.update (Boss.takeDamage 400 (Boss.init 500))).health / 500 < 0.66) ∧
    ((Boss.update (Boss.takeDamage 400 (Boss.init 500))).phase = 1 ↔
      0.66 ≤ (Boss.update (Boss.takeDamage 400 (Boss.init 500))).health / 500) ∧
    ((Boss.update (Boss.takeDamage 400 (Boss.init 500))).enraged = true ↔
      (Boss.update (Boss.takeDamage 400 (Boss.init 500))).phase = 3) :=
  C6_boss_phase (by norm_num)
    (Boss.Reachable.damage 400 (by norm_num) Boss.Reachable.init)
    (by norm_num [Boss.update, Boss.takeDamage, Boss.init])

/-! ## Combo state (claim C5)

From the game-engine source (`src/unnamed/part_005`): the `ComboState`
interface (lines 47-51), its initialisation in the constructor and in
`start()` (`{ count: 0, lastEatTime: 0, multiplier: 1 }`, lines 126 and 317),
the timeout check at the top of `updatePhysics` (lines 533-538) and the
advance on an eat (lines 583-586).  Timestamps (`performance.now()`) are
embedded as rationals.
-/

structure ComboState where
  count : ℕ
  lastEatTime : ℚ
  multiplier : ℕ
deriving DecidableEq, Repr

/-- Initial combo state (part_005 lines 126, 317). -/
def comboInit : ComboState := { count := 0, lastEatTime := 0, multiplier := 1 }

/-- Combo timeout check (part_005 lines 533-538):

    if (this.combo.count > 0 && now - this.combo.lastEatTime > CONFIG.combo.windowMs) {
      this.combo.count = 0;
      this.combo.multiplier = 1;
    }
-/
def comboTimeoutCheck (now : ℚ) (c : ComboState) : ComboState :=
  if 0 < c.count ∧ now - c.lastEatTime > CONFIG.comboWindowMs then
    { c with count := 0, multiplier := 1 }
  else c

/-- Combo advance on an eat (part_005 lines 583-586):

    this.combo.count++;
    this.combo.lastEatTime = now;
    this.combo.multiplier = Math.min(this.combo.count, CONFIG.combo.maxMultiplier);
-/
def comboEat (now : ℚ) (c : ComboState) : ComboState :=
  { count := c.count + 1, lastEatTime := now,
    multiplier := min (c.count + 1) CONFIG.comboMaxMultiplier }

/-- Combo states reachable in the engine: the initial state, followed by any
interleaving of per-tick timeout checks and eats. -/
inductive Combo.Reachable : ComboState → Prop where
  | init : Combo.Reachable comboInit
  | timeout {c} (now : ℚ) : Combo.Reachable c → Combo.Reachable (comboTimeoutCheck now c)
  | eat {c} (now : ℚ) : Combo.Reachable c → Combo.Reachable (comboEat now c)

/-- C5 counterexample: the claim asserts `multiplier = min(count, maxMultiplier)`
at every tick, but in the initial (and every post-reset) state `count = 0` and
`multiplier = 1 ≠ min 0 8 = 0`. -/
theorem C5_counterexample :
    Combo.Reachable comboInit ∧
      comboInit.multiplier ≠ min comboInit.count CONFIG.comboMaxMultiplier := by
  refine ⟨Combo.Reachable.init, ?_⟩
  simp [comboInit, CONFIG.comboMaxMultiplier]

/-- C5 amended: in every reachable combo state the multiplier equals
`max 1 (min count maxMultiplier)` (the spec's `min count maxMultiplier`, except
that it is `1`, not `0`, while the count is `0`); and whenever
`now - lastEatTime` exceeds the combo window, the next tick's timeout check
leaves the state reset: `count = 0` and `multiplier = 1`, regardless of the
prior count. -/
theorem C5_amended {c : ComboState} (hc : Combo.Reachable c) :
    c.multiplier = max 1 (min c.count CONFIG.comboMaxMultiplier) ∧
    ∀ now : ℚ, now - c.lastEatTime > CONFIG.comboWindowMs →
      (comboTimeoutCheck now c).count = 0 ∧
      (comboTimeoutCheck now c).multiplier = 1 := by
  have hmain : ∀ {c' : ComboState}, Combo.Reachable c' →
      c'.multiplier = max 1 (min c'.count CONFIG.comboMaxMultiplier) := by
    intro c' hc'
    induction hc' with
    | init => simp [comboInit]
    | @timeout c0 now hc0 ih =>
      unfold comboTimeoutCheck
      split
      · simp
      · exact ih
    | @eat c0 now hc0 ih =>
      unfold comboEat CONFIG.comboMaxMultiplier
      simp only
      omega
  refine ⟨hmain hc, fun now hnow => ?_⟩
  unfold comboTimeoutCheck
  by_cases hcnt : 0 < c.count
  · rw [if_pos ⟨hcnt, hnow⟩]
    exact ⟨rfl, rfl⟩
  · have hc0 : c.count = 0 := by omega
    have hm := hmain hc
    rw [hc0] at hm
    split
    · exact ⟨rfl, rfl⟩
    · refine ⟨hc0, ?_⟩
      rw [hm]
      simp [CONFIG.comboMaxMultiplier]

/-- C5 witness: instance of `C5_amended` at the initial combo state and a
`now` beyond the 1800 ms window. -/
theorem C5_witness :
    comboInit.multiplier = max 1 (min comboInit.count CONFIG.comboMaxMultiplier) ∧
    (comboTimeoutCheck 2000 comboInit).count = 0 ∧
    (comboTimeoutCheck 2000 comboInit).multiplier = 1 :=
  ⟨(C5_amended Combo.Reachable.init).1,
   (C5_amended Combo.Reachable.init).2 2000
     (by norm_num [comboInit, CONFIG.comboWindowMs])⟩

/-! ## Ink resource (claim C3)

Every write to `player.ink` in the source:

* `Player.update`, Player.ts lines 141-147 — the dash/regen branch:

      if (isInputActive && this.ink > 1) {
        speed = CONFIG.player.dashSpeed;
        this.ink -= CONFIG.player.inkCost;          // 1.8
      } else {
        this.ink = Math.min(this.ink + CONFIG.player.inkRegen, CONFIG.player.maxInk);
      }

* the combo ink bonus, part_005 lines 618-623:
  `this.player.ink = Math.min(this.player.ink + CONFIG.combo.inkBonus, CONFIG.player.maxInk)`
  (only run on a high combo; modelling it as always available only enlarges
  the reachable set);
* `GameEngine.fireProjectile`, part_005 lines 1093-1105 — guarded by an early
  return when `this.player.ink < this.shootInkCost` (10), then
  `this.player.ink = Math.max(0, this.player.ink - this.shootInkCost)`;
* `GameEngine.respawn`, part_005 line 904 — `this.player.ink = CONFIG.player.maxInk`;
* the `Player` constructor, Player.ts line 110 — `this.ink = CONFIG.player.maxInk`.

(`Player.update` reads `CONFIG.player.inkCost` directly; the `dashInkCost`
field the engine sets from shop upgrades and power-ups is never read there.)
-/

/-- Ink part of one `Player.update` tick (Player.ts lines 141-147). -/
def inkMoveStep (isInputActive : Bool) (ink : ℚ) : ℚ :=
  if isInputActive = true ∧ 1 < ink then ink - CONFIG.inkCost
  else min (ink + CONFIG.inkRegen) CONFIG.maxInk

/-- Combo ink bonus (part_005 lines 618-623). -/
def inkComboBonus (ink : ℚ) : ℚ := min (ink + CONFIG.comboInkBonus) CONFIG.maxInk

/-- Ink effect of `GameEngine.fireProjectile` (part_005 lines 1093-1105),
including the `ink < shootInkCost` early return. -/
def inkFire (ink : ℚ) : ℚ := if ink < 10 then ink else max 0 (ink - 10)

/-- Ink refill on respawn (part_005 line 904). -/
def inkRespawn (_ink : ℚ) : ℚ := CONFIG.maxInk

/-- Ink values reachable in the engine, starting from a full tank. -/
inductive Ink.Reachable : ℚ → Prop where
  | init : Ink.Reachable CONFIG.maxInk
  | move {i} (a : Bool) : Ink.Reachable i → Ink.Reachable (inkMoveStep a i)
  | bonus {i} : Ink.Reachable i → Ink.Reachable (inkComboBonus i)
  | fire {i} : Ink.Reachable i → Ink.Reachable (inkFire i)
  | respawn {i} : Ink.Reachable i → Ink.Reachable (inkRespawn i)

/-- Iterating reachable steps stays reachable. -/
theorem Ink.reachable_iterate_move (a : Bool) {i : ℚ} (hi : Ink.Reachable i) :
    ∀ n : ℕ, Ink.Reachable ((inkMoveStep a)^[n] i) := by
  intro n
  induction n with
  | zero => exact hi
  | succ n ih =>
    rw [Function.iterate_succ_apply']
    exact Ink.Reachable.move a ih

/-- Closed form for a run of dash ticks: as long as the ink stays above the
dash threshold `1`, each tick subtracts `inkCost = 1.8`. -/
theorem inkMoveStep_dash_run (n : ℕ) :
    ∀ i : ℚ, 1 + (n : ℚ) * CONFIG.inkCost ≤ i →
      (inkMoveStep true)^[n] i = i - (n : ℚ) * CONFIG.inkCost := by
  induction n with
  | zero => intro i _; simp
  | succ n ih =>
    intro i hi
    rw [Function.iterate_succ_apply]
    have hcost : (CONFIG.inkCost : ℚ) = 1.8 := rfl
    have h1 : (1 : ℚ) < i := by
      have : (0 : ℚ) ≤ (n : ℚ) := Nat.cast_nonneg n
      push_cast at hi
      nlinarith [hcost]
    have hstep : inkMoveStep true i = i - CONFIG.inkCost := by
      unfold inkMoveStep
      rw [if_pos ⟨rfl, h1⟩]
    rw [hstep, ih (i - CONFIG.inkCost) (by push_cast at hi ⊢; nlinarith [hcost])]
    push_cast
    ring

/-- C3 counterexample: the ink can go negative.  Starting from a full tank of
`100`, 55 consecutive dash ticks land the ink exactly on `1` (`100 - 55·1.8`),
one idle tick regenerates it to `1.45`, which is above the dash threshold `1`,
and one further dash tick spends `1.8`, leaving `-0.35 < 0`. -/
theorem C3_counterexample : ∃ i : ℚ, Ink.Reachable i ∧ i < 0 := by
  refine ⟨inkMoveStep true (inkMoveStep false ((inkMoveStep true)^[55] CONFIG.maxInk)), ?_, ?_⟩
  · exact Ink.Reachable.move true
      (Ink.Reachable.move false (Ink.reachable_iterate_move true Ink.Reachable.init 55))
  · have h55 : (inkMoveStep true)^[55] CONFIG.maxInk = 1 := by
      rw [inkMoveStep_dash_run 55 CONFIG.maxInk
        (by norm_num [CONFIG.inkCost, CONFIG.maxInk])]
      norm_num [CONFIG.inkCost, CONFIG.maxInk]
    rw [h55]
    norm_num [inkMoveStep, CONFIG.inkCost, CONFIG.inkRegen, CONFIG.maxInk]

/-- C3 amended: the upper bound holds as claimed (`ink ≤ maxInk` in every
reachable state), but the lower bound is `1 - inkCost = -0.8 < ink`, not
`0 ≤ ink`: a dash tick taken just above the threshold `1` can overdraw the
tank by up to `0.8`. -/
theorem C3_amended {i : ℚ} (hi : Ink.Reachable i) :
    1 - CONFIG.inkCost < i ∧ i ≤ CONFIG.maxInk := by
  have hcost : (CONFIG.inkCost : ℚ) = 1.8 := rfl
  have hregen : (CONFIG.inkRegen : ℚ) = 0.45 := rfl
  have hmax : (CONFIG.maxInk : ℚ) = 100 := rfl
  have hbonus : (CONFIG.comboInkBonus : ℚ) = 12 := rfl
  induction hi with
  | init => rw [hcost, hmax]; norm_num
  | @move i0 a hi0 ih =>
    obtain ⟨ihl, ihu⟩ := ih
    unfold inkMoveStep
    split
    · rename_i h
      constructor
      · rw [hcost]; linarith [h.2]
      · rw [hcost] at *; linarith
    · constructor
      · rw [hcost, hregen, hmax] at *
        rw [lt_min_iff]
        constructor <;> linarith
      · exact min_le_right _ _
  | @bonus i0 hi0 ih =>
    obtain ⟨ihl, ihu⟩ := ih
    unfold inkComboBonus
    constructor
    · rw [hcost, hbonus, hmax] at *
      rw [lt_min_iff]
      constructor <;> linarith
    · exact min_le_right _ _
  | @fire i0 hi0 ih =>
    obtain ⟨ihl, ihu⟩ := ih
    unfold inkFire
    split
    · exact ⟨ihl, ihu⟩
    · rename_i h
      push_neg at h
      constructor
      · rw [hcost]
        have : (0 : ℚ) ≤ max 0 (i0 - 10) := le_max_left _ _
        linarith
      · rw [hmax] at *
        rw [max_le_iff]
        constructor <;> linarith
  | @respawn i0 hi0 ih =>
    unfold inkRespawn
    rw [hcost, hmax]
    norm_num

/-- C3 witness: instance of `C3_amended` at the initial full tank. -/
theorem C3_witness :
    1 - CONFIG.inkCost < CONFIG.maxInk ∧ CONFIG.maxInk ≤ CONFIG.maxInk :=
  C3_amended Ink.Reachable.init

/-! ## Object pools (claim C4)

The pools hold lists of particle / projectile / text objects; only the sizes
of the free list (`pool`) and the live list (`active`) matter for the
capacity claim, so pool states are embedded as the pair of those lengths.

* `ParticlePool` (`src/src/game/Particle.ts` lines 165-255): the constructor
  pre-allocates 50 free particles; `spawn` pops a free particle if one exists,
  otherwise allocates a new one only while `active.length < maxPoolSize`,
  otherwise returns without effect; `update` returns an expired particle to
  the free list only while `pool.length < maxPoolSize`; `clear` moves every
  active particle to the free list.  The engine constructs it with
  `maxPoolSize = 300` (part_005 line 156).
* `ProjectilePool` (`src/src/game/Projectile.ts` lines 110-169): `spawn`
  pushes only while `pool.length < maxSize`; `update`/`remove` splice
  projectiles out; `clear` empties it.  The engine constructs it with
  `maxSize = 50` (part_005 line 157).
* `FloatingTextPool` (`src/unnamed/part_009`, lines 326-372): `acquire`
  reuses a free instance if one exists but **always** pushes onto `active`;
  `maxPoolSize = 50` is consulted only when `update`/`clear` return expired
  instances to the free list.
-/

structure PoolState where
  free : ℕ
  active : ℕ
deriving DecidableEq, Repr

/-- The `ParticlePool` constructor (Particle.ts lines 170-176): 50 pre-allocated
free particles, none active. -/
def particleInit : PoolState := { free := 50, active := 0 }

/-- Source `ParticlePool.spawn` (Particle.ts lines 181-200). -/
def particleSpawn (maxPoolSize : ℕ) (s : PoolState) : PoolState :=
  if 0 < s.free then { free := s.free - 1, active := s.active + 1 }
  else if s.active < maxPoolSize then { s with active := s.active + 1 }
  else s

/-- One expired particle inside `ParticlePool.update` (Particle.ts lines
228-237): spliced out of `active`, returned to the free list only while the
free list is below `maxPoolSize`. -/
def particleExpire (maxPoolSize : ℕ) (s : PoolState) : PoolState :=
  if 0 < s.active then
    { free := if s.free < maxPoolSize then s.free + 1 else s.free,
      active := s.active - 1 }
  else s

/-- Source `ParticlePool.clear` (Particle.ts lines 252-255). -/
def particleClear (s : PoolState) : PoolState :=
  { free := s.free + s.active, active := 0 }

/-- Particle-pool states reachable in the engine (capacity 300). -/
inductive Particle.Reachable : PoolState → Prop where
  | init : Particle.Reachable particleInit
  | spawn {s} : Particle.Reachable s → Particle.Reachable (particleSpawn 300 s)
  | expire {s} : Particle.Reachable s → Particle.Reachable (particleExpire 300 s)
  | clear {s} : Particle.Reachable s → Particle.Reachable (particleClear s)

/-- Source `ProjectilePool.spawn` (Projectile.ts lines 121-125); the pool holds only
active projectiles, embedded as their count. -/
def projectileSpawn (maxSize : ℕ) (n : ℕ) : ℕ :=
  if n < maxSize then n + 1 else n

/-- One projectile spliced out by `ProjectilePool.update` or
`ProjectilePool.remove` (Projectile.ts lines 130-136, 157-162). -/
def projectileRemove (n : ℕ) : ℕ := n - 1

/-- Source `ProjectilePool.clear` (Projectile.ts lines 167-169). -/
def projectileClear (_n : ℕ) : ℕ := 0

/-- Projectile-pool states reachable in the engine (capacity 50). -/
inductive Projectile.Reachable : ℕ → Prop where
  | init : Projectile.Reachable 0
  | spawn {n} : Projectile.Reachable n → Projectile.Reachable (projectileSpawn 50 n)
  | remove {n} : Projectile.Reachable n → Projectile.Reachable (projectileRemove n)
  | clear {n} : Projectile.Reachable n → Projectile.Reachable (projectileClear n)

/-- Source `FloatingTextPool.acquire` (part_009 lines 331-349): reuse a free instance
when available, allocate otherwise — in both cases push onto `active`.  There
is no capacity check on `active`. -/
def floatingTextAcquire (s : PoolState) : PoolState :=
  if 0 < s.free then { free := s.free - 1, active := s.active + 1 }
  else { s with active := s.active + 1 }

/-- One expired text inside `FloatingTextPool.update` (part_009 lines
351-360). -/
def floatingTextExpire (maxPoolSize : ℕ) (s : PoolState) : PoolState :=
  if 0 < s.active then
    { free := if s.free < maxPoolSize then s.free + 1 else s.free,
      active := s.active - 1 }
  else s

/-- Source `FloatingTextPool.clear` (part_009 lines 368-371): every active
instance is pushed onto the free list, without a capacity check. -/
def floatingTextClear (s : PoolState) : PoolState :=
  { free := s.free + s.active, active := 0 }

/-- Floating-text-pool states reachable in the engine: the pool starts empty
(`private pool = []; private active = []`). -/
inductive FloatingText.Reachable : PoolState → Prop where
  | init : FloatingText.Reachable { free := 0, active := 0 }
  | acquire {s} : FloatingText.Reachable s → FloatingText.Reachable (floatingTextAcquire s)
  | expire {s} : FloatingText.Reachable s → FloatingText.Reachable (floatingTextExpire 50 s)
  | clear {s} : FloatingText.Reachable s → FloatingText.Reachable (floatingTextClear s)

/-- Iterated `acquire` is reachable. -/
theorem FloatingText.reachable_iterate_acquire {s : PoolState}
    (hs : FloatingText.Reachable s) :
    ∀ n : ℕ, FloatingText.Reachable (floatingTextAcquire^[n] s) := by
  intro n
  induction n with
  | zero => exact hs
  | succ n ih =>
    rw [Function.iterate_succ_apply']
    exact FloatingText.Reachable.acquire ih

/-- Each `acquire` call grows the active count by one, unconditionally. -/
theorem floatingTextAcquire_active (s : PoolState) :
    (floatingTextAcquire s).active = s.active + 1 := by
  unfold floatingTextAcquire
  split <;> rfl

/-- C4 counterexample: the floating-text pool has `maxPoolSize = 50`, yet 51
consecutive `acquire` calls from the initial state leave 51 simultaneously
active instances — the 51st call still adds one. -/
theorem C4_counterexample :
    FloatingText.Reachable (floatingTextAcquire^[51] { free := 0, active := 0 }) ∧
    (floatingTextAcquire^[51] { free := 0, active := 0 } : PoolState).active = 51 := by
  refine ⟨FloatingText.reachable_iterate_acquire FloatingText.Reachable.init 51, ?_⟩
  have key : ∀ (n : ℕ) (s : PoolState),
      (floatingTextAcquire^[n] s).active = s.active + n := by
    intro n
    induction n with
    | zero => intro s; rfl
    | succ n ih =>
      intro s
      rw [Function.iterate_succ_apply', floatingTextAcquire_active, ih]
      omega
  rw [key]

/-- C4 amended: the particle pool (capacity 300) and the projectile pool
(capacity 50) do satisfy the claim — in every reachable state the active count
stays within capacity, and a spawn issued at capacity is silently refused (the
state is unchanged).  The floating-text pool does not: its `maxPoolSize` only
bounds the free list, and `acquire` succeeds unconditionally. -/
theorem C4_amended {p : PoolState} (hp : Particle.Reachable p)
    {n : ℕ} (hn : Projectile.Reachable n) :
    p.active ≤ 300 ∧ (p.active = 300 → particleSpawn 300 p = p) ∧
    n ≤ 50 ∧ (n = 50 → projectileSpawn 50 n = n) := by
  have hpart : ∀ {q : PoolState}, Particle.Reachable q → q.free + q.active ≤ 300 := by
    intro q hq
    induction hq with
    | init => norm_num [particleInit]
    | @spawn s hs ih =>
      unfold particleSpawn
      split
      · simp only
        omega
      · split
        · simp only
          omega
        · exact ih
    | @expire s hs ih =>
      unfold particleExpire
      split
      · simp only
        split <;> omega
      · exact ih
    | @clear s hs ih =>
      unfold particleClear
      simp only
      omega
  have hproj : ∀ {m : ℕ}, Projectile.Reachable m → m ≤ 50 := by
    intro m hm
    induction hm with
    | init => norm_num
    | @spawn k hk ih =>
      unfold projectileSpawn
      split <;> omega
    | @remove k hk ih =>
      unfold projectileRemove
      omega
    | @clear k hk ih =>
      unfold projectileClear
      omega
  refine ⟨by have := hpart hp; omega, fun hfull => ?_, hproj hn, fun hfull => ?_⟩
  · have hfree : p.free = 0 := by have := hpart hp; omega
    unfold particleSpawn
    rw [if_neg (by omega), if_neg (by omega)]
  · unfold projectileSpawn
    rw [if_neg (by omega)]

/-- C4 witness: instance of `C4_amended` at the initial particle and
projectile pools. -/
theorem C4_witness :
    particleInit.active ≤ 300 ∧
    (particleInit.active = 300 → particleSpawn 300 particleInit = particleInit) ∧
    (0 : ℕ) ≤ 50 ∧ ((0 : ℕ) = 50 → projectileSpawn 50 0 = 0) :=
  C4_amended Particle.Reachable.init Projectile.Reachable.init

/-! ## Growth awarded on an eat (claim C7)

From the eat branch of `GameEngine.updatePhysics` (part_005 lines 579-590):

    const baseGain = e.type === 'food' ? 0.3 : e.radius * 0.2;
    this.combo.count++;
    this.combo.lastEatTime = now;
    this.combo.multiplier = Math.min(this.combo.count, CONFIG.combo.maxMultiplier);
    const gain = baseGain * (1 + (this.combo.multiplier - 1) * 0.2) * this.xpMultiplier;
    this.player.radius += gain;

`xpMultiplier` is the externally supplied shop multiplier (set in `start()`,
part_005 line 332).
-/

/-- Base growth amount (part_005 line 581): flat `0.3` for food, `0.2 · radius`
otherwise. -/
def eatBaseGain (t : EntityType) (entityRadius : ℚ) : ℚ :=
  if t = EntityType.food then 0.3 else entityRadius * 0.2

/-- Combo advance and radius growth of one eat (part_005 lines 579-590),
returning the updated combo state and player radius. -/
def engineEat (t : EntityType) (entityRadius now xp : ℚ) (c : ComboState)
    (playerRadius : ℚ) : ComboState × ℚ :=
  let c' := comboEat now c
  (c', playerRadius +
    eatBaseGain t entityRadius * (1 + ((c'.multiplier : ℚ) - 1) * 0.2) * xp)

/-- C7 counterexample: eating a food entity with one prior combo hit (the
updated multiplier is 2) and `xpMultiplier = 1` awards
`0.3 · (1 + (2-1)·0.2) = 0.36` radius, not the claimed
`base · multiplier · xp = 0.3 · 2 · 1 = 0.6`. -/
theorem C7_counterexample :
    (engineEat EntityType.food 5 100 1
        { count := 1, lastEatTime := 0, multiplier := 1 } 15).2 - 15 ≠
      eatBaseGain EntityType.food 5 *
        ((min (1 + 1) CONFIG.comboMaxMultiplier : ℕ) : ℚ) * 1 := by
  norm_num [engineEat, eatBaseGain, comboEat, CONFIG.comboMaxMultiplier]

/-- C7 amended: the growth awarded on an eat is the base amount times
`1 + (multiplier - 1) · 0.2` times the XP multiplier — the combo multiplier
enters through a 20%-per-step bonus, not as a direct factor — where
`multiplier` is the combo multiplier as updated by this eat,
`min (count + 1) maxMultiplier`. -/
theorem C7_amended (t : EntityType) (entityRadius now xp : ℚ) (c : ComboState)
    (playerRadius : ℚ) :
    (engineEat t entityRadius now xp c playerRadius).1.multiplier =
      min (c.count + 1) CONFIG.comboMaxMultiplier ∧
    (engineEat t entityRadius now xp c playerRadius).2 - playerRadius =
      eatBaseGain t entityRadius *
        (1 + (((min (c.count + 1) CONFIG.comboMaxMultiplier : ℕ) : ℚ) - 1) * 0.2)
        * xp := by
  constructor
  · rfl
  · show playerRadius + _ - playerRadius = _
    rw [comboEat]
    ring

/-! ## Projectile firing (claim C10)

`GameEngine.fireProjectile` (part_005 lines 1085-1118) with the constants
`shootCooldown = 300`, `shootInkCost = 10` (lines 95-96):

    const now = performance.now();
    if (now - this.lastShootTime < this.shootCooldown) { return; }
    if (this.player.ink < this.shootInkCost) { return; }
    const charge = Math.min(this.shootCharge / 60, 1);
    this.projectilePool.spawn(this.player.x, this.player.y, this.player.angle, charge);
    this.player.ink = Math.max(0, this.player.ink - this.shootInkCost);
    this.shootCharge = 0;
    this.lastShootTime = now;

The pool side of `spawn` is the capacity-guarded push already embedded as
`projectileSpawn`; the spawned projectile's position/angle/charge do not
affect the counts, ink or timers, so the state below keeps what the claim
speaks about.
-/

structure FireState where
  now : ℚ
  lastShootTime : ℚ
  shootCharge : ℚ
  ink : ℚ
  poolCount : ℕ
deriving DecidableEq, Repr

/-- Source `GameEngine.fireProjectile` (part_005 lines 1085-1118). -/
def fireProjectile (s : FireState) : FireState :=
  if s.now - s.lastShootTime < 300 then s
  else if s.ink < 10 then s
  else
    { s with
      poolCount := projectileSpawn 50 s.poolCount,
      ink := max 0 (s.ink - 10),
      shootCharge := 0,
      lastShootTime := s.now }

/-- C10 counterexample: with the projectile pool at its capacity of 50, a call
passing both the cooldown and the ink check deducts 10 ink but spawns no
projectile, so "spawns a projectile and deducts 10 ink iff cooldown and ink
allow" fails. -/
theorem C10_counterexample :
    ¬ (((fireProjectile ⟨1000, 0, 30, 100, 50⟩).poolCount =
          (⟨1000, 0, 30, 100, 50⟩ : FireState).poolCount + 1 ∧
        (fireProjectile ⟨1000, 0, 30, 100, 50⟩).ink =
          (⟨1000, 0, 30, 100, 50⟩ : FireState).ink - 10) ↔
       (300 ≤ (⟨1000, 0, 30, 100, 50⟩ : FireState).now -
          (⟨1000, 0, 30, 100, 50⟩ : FireState).lastShootTime ∧
        10 ≤ (⟨1000, 0, 30, 100, 50⟩ : FireState).ink)) := by
  norm_num [fireProjectile, projectileSpawn]

/-- C10 amended: a call deducts exactly 10 ink, resets the accumulated charge
and restarts the cooldown iff at least 300 ms have elapsed since the last
successful shot and the ink is at least 10; it additionally spawns a
projectile iff moreover the pool is below its capacity of 50; and a call
refused by the cooldown or the ink check leaves the whole state (pool, ink,
charge, cooldown) unchanged. -/
theorem C10_amended (s : FireState) :
    (((fireProjectile s).ink = s.ink - 10 ∧ (fireProjectile s).shootCharge = 0 ∧
        (fireProjectile s).lastShootTime = s.now) ↔
      (300 ≤ s.now - s.lastShootTime ∧ 10 ≤ s.ink)) ∧
    ((fireProjectile s).poolCount = s.poolCount + 1 ↔
      (300 ≤ s.now - s.lastShootTime ∧ 10 ≤ s.ink ∧ s.poolCount < 50)) ∧
    (¬ (300 ≤ s.now - s.lastShootTime ∧ 10 ≤ s.ink) → fireProjectile s = s) := by
  unfold fireProjectile projectileSpawn
  by_cases hcd : s.now - s.lastShootTime < 300
  · rw [if_pos hcd]
    refine ⟨⟨fun h => absurd h.1 (by linarith), fun h => absurd h.1 (by linarith)⟩,
      ⟨fun h => by omega, fun h => absurd h.1 (by linarith)⟩, fun _ => rfl⟩
  · rw [if_neg hcd]
    by_cases hink : s.ink < 10
    · rw [if_pos hink]
      refine ⟨⟨fun h => ?_, fun h => absurd h.2 (by linarith)⟩,
        ⟨fun h => by omega, fun h => absurd h.2.1 (by linarith)⟩, fun _ => rfl⟩
      exact absurd h.1 (by intro he; linarith [he ▸ le_refl s.ink])
    · rw [if_neg hink]
      push_neg at hcd hink
      have hmax : max 0 (s.ink - 10) = s.ink - 10 := max_eq_right (by linarith)
      refine ⟨iff_of_true ⟨hmax, rfl, rfl⟩ ⟨hcd, hink⟩, ?_, fun h => absurd ⟨hcd, hink⟩ h⟩
      by_cases hpool : s.poolCount < 50
      · rw [if_pos hpool]
        exact iff_of_true rfl ⟨hcd, hink, hpool⟩
      · rw [if_neg hpool]
        exact ⟨fun h => by dsimp only at h; omega, fun h => absurd h.2.2 hpool⟩

/-- C10 witness: instance of `C10_amended` at a non-full pool with the
cooldown elapsed and a full ink tank. -/
theorem C10_witness :
    (fireProjectile ⟨1000, 0, 30, 100, 0⟩).ink =
      (⟨1000, 0, 30, 100, 0⟩ : FireState).ink - 10 ∧
    (fireProjectile ⟨1000, 0, 30, 100, 0⟩).shootCharge = 0 ∧
    (fireProjectile ⟨1000, 0, 30, 100, 0⟩).lastShootTime =
      (⟨1000, 0, 30, 100, 0⟩ : FireState).now :=
  (C10_amended ⟨1000, 0, 30, 100, 0⟩).1.mpr (by norm_num)

/-! ## Life loss, respawn and game over (claim C9)

An entity, as read by the collision and respawn code: its classification,
position and radius (`src/src/game/Entity.ts` fields `type`, `x`, `y`,
`radius`; colour, speed, velocity and shape are rendering/AI state that the
collision and respawn logic never reads).
-/

structure EntityRec where
  type : EntityType
  x : ℚ
  y : ℚ
  radius : ℚ
deriving DecidableEq, Repr

/-- The engine state read and written by `GameEngine.gameOver` and
`GameEngine.respawn` (part_005 lines 846-917), restricted to the fields those
two functions touch or the claim speaks about. -/
structure LifeState where
  lives : ℤ
  playerX : ℚ
  playerY : ℚ
  playerRadius : ℚ
  playerInk : ℚ
  playerLevelIndex : ℕ
  entities : List EntityRec
  spawnProtection : ℕ
  running : Bool
deriving DecidableEq, Repr

/-- Source `GameEngine.gameOver` (part_005 lines 846-881) together with
`GameEngine.respawn` (lines 885-917).  `this.lives--`; with lives remaining,
`respawn()` builds a fresh `new Player()` at the world centre, restores the
saved `radius`/`levelIndex`, drops every entity whose distance from the new
player position is at most 500 (the source computes
`Math.sqrt(dx*dx + dy*dy) > 500`, which for non-negative arguments is
equivalent to the square-free `dx*dx + dy*dy > 250000` used here), sets
`spawnProtection = SPAWN_PROTECTION_FRAMES * 3 = 180` and refills the ink;
with no lives remaining it sets `running = false` and reports
`Math.floor(player.radius)` through `onGameOver`, returned here as the
optional notification. -/
def gameOverStep (s : LifeState) : LifeState × Option ℤ :=
  let lives := s.lives - 1
  if 0 < lives then
    ({ s with
        lives := lives,
        playerX := CONFIG.worldSize / 2,
        playerY := CONFIG.worldSize / 2,
        playerInk := CONFIG.maxInk,
        entities := s.entities.filter (fun e =>
          decide (250000 <
            (e.x - CONFIG.worldSize / 2) * (e.x - CONFIG.worldSize / 2) +
            (e.y - CONFIG.worldSize / 2) * (e.y - CONFIG.worldSize / 2))),
        spawnProtection := 180 }, none)
  else
    ({ s with lives := lives, running := false }, some ⌊s.playerRadius⌋)

/-- C9: on a life loss with lives remaining the respawned player keeps the
accumulated radius and level index, the ink is refilled to max, exactly the
entities within 500 of the spawn point are removed, and the granted
spawn-protection window (180 frames) is longer than the session-start window
(60 frames); with no lives remaining the loop stops and the host is notified
with the final score `⌊radius⌋`. -/
theorem C9_life_respawn (s : LifeState) :
    (1 < s.lives →
      (gameOverStep s).2 = none ∧
      (gameOverStep s).1.lives = s.lives - 1 ∧
      (gameOverStep s).1.playerRadius = s.playerRadius ∧
      (gameOverStep s).1.playerLevelIndex = s.playerLevelIndex ∧
      (gameOverStep s).1.playerInk = CONFIG.maxInk ∧
      (gameOverStep s).1.spawnProtection = 180 ∧
      60 < (gameOverStep s).1.spawnProtection ∧
      (∀ e ∈ s.entities, (e ∈ (gameOverStep s).1.entities ↔
        250000 <
          (e.x - CONFIG.worldSize / 2) * (e.x - CONFIG.worldSize / 2) +
          (e.y - CONFIG.worldSize / 2) * (e.y - CONFIG.worldSize / 2))) ∧
      (gameOverStep s).1.running = s.running) ∧
    (s.lives ≤ 1 →
      (gameOverStep s).1.running = false ∧
      (gameOverStep s).1.lives = s.lives - 1 ∧
      (gameOverStep s).2 = some ⌊s.playerRadius⌋) := by
  constructor
  · intro h
    have hl : 0 < s.lives - 1 := by omega
    unfold gameOverStep
    rw [if_pos hl]
    refine ⟨rfl, rfl, rfl, rfl, rfl, rfl, by norm_num, ?_, rfl⟩
    intro e he
    constructor
    · intro hm
      exact of_decide_eq_true (List.mem_filter.mp hm).2
    · intro hp
      exact List.mem_filter.mpr ⟨he, decide_eq_true hp⟩
  · intro h
    have hl : ¬ 0 < s.lives - 1 := by omega
    unfold gameOverStep
    rw [if_neg hl]
    exact ⟨rfl, rfl, rfl⟩

/-- C9 witness: instance of `C9_life_respawn` for a life loss at 3 lives
(respawn path) and one at the last life (game-over path, final score
`⌊20.7⌋ = 20`). -/
theorem C9_witness :
    ((gameOverStep ⟨3, 0, 0, 20.7, 42, 2, [], 0, true⟩).1.playerInk =
        CONFIG.maxInk ∧
      (gameOverStep ⟨3, 0, 0, 20.7, 42, 2, [], 0, true⟩).1.spawnProtection = 180) ∧
    ((gameOverStep ⟨1, 0, 0, 20.7, 42, 2, [], 0, true⟩).1.running = false ∧
      (gameOverStep ⟨1, 0, 0, 20.7, 42, 2, [], 0, true⟩).2 = some ⌊(20.7 : ℚ)⌋) :=
  ⟨⟨((C9_life_respawn ⟨3, 0, 0, 20.7, 42, 2, [], 0, true⟩).1 (by norm_num)).2.2.2.2.1,
    ((C9_life_respawn ⟨3, 0, 0, 20.7, 42, 2, [], 0, true⟩).1 (by norm_num)).2.2.2.2.2.1⟩,
   ⟨((C9_life_respawn ⟨1, 0, 0, 20.7, 42, 2, [], 0, true⟩).2 (by norm_num)).1,
    ((C9_life_respawn ⟨1, 0, 0, 20.7, 42, 2, [], 0, true⟩).2 (by norm_num)).2.2⟩⟩

/-! ## Spatial grid and the eat rule (claim C1)

`SpatialGrid` (`src/unnamed/part_007`) buckets entities by
`Math.floor(x / cellSize), Math.floor(y / cellSize)`; the engine constructs it
with `cellSize = 300` (part_005 line 160).  `build` inserts the entities in
list order; `getNearby (x, y)` concatenates the contents of the query cell's
3×3 neighbourhood, iterating `dc` in `-1..1` outer and `dr` in `-1..1` inner.
The source stores object references; entities are identified here by their
index in the engine's entity list.
-/

/-- Source `SpatialGrid.getCellKey` (part_007 lines 20-24) at `cellSize = 300`. -/
def cellOf (x y : ℚ) : ℤ × ℤ := (⌊x / 300⌋, ⌊y / 300⌋)

/-- The nine cell offsets of `SpatialGrid.getNearby` (part_007 lines 53-61),
in loop order. -/
def nearOffsets : List (ℤ × ℤ) :=
  [(-1, -1), (-1, 0), (-1, 1), (0, -1), (0, 0), (0, 1), (1, -1), (1, 0), (1, 1)]

/-- Source `SpatialGrid.build` followed by `getNearby x y` (part_007 lines 47-74):
for each of the nine neighbouring cell keys, the indices (in insertion order,
which is entity-list order) of the entities bucketed in that cell. -/
def gridNearbyIdx (es : List EntityRec) (x y : ℚ) : List ℕ :=
  nearOffsets.flatMap fun d =>
    ((es.enum).filter fun p =>
      decide (cellOf p.2.x p.2.y = ((cellOf x y).1 + d.1, (cellOf x y).2 + d.2))).map
      Prod.fst

/-- One iteration of the player-entity collision loop of
`GameEngine.updatePhysics` (part_005 lines 568-660), processing the nearby
entity with index `i`.  The accumulator carries the list of indices marked for
death (`e.markedForDeath = true`), whether a shield power-up is active, and
whether a lethal contact has aborted the tick (`this.gameOver(); return;`);
after the lethal flag is set no further loop body runs.  The branches, in
source order: squared-distance overlap test against the `playerRadius`
snapshot taken before the loop (lines 571-578); eat when the player outsizes
the entity (lines 579-635, marking only — the combo/growth effects are the
`engineEat` embedding and do not change which entities are marked); otherwise,
for a non-food entity with spawn protection expired, either consume the shield
and mark the entity (lines 638-654) or abort the tick (lines 655-657). -/
def collideStep (es : List EntityRec) (pr px py : ℚ) (prot : ℕ)
    (acc : List ℕ × Bool × Bool) (i : ℕ) : List ℕ × Bool × Bool :=
  if acc.2.2 = true then acc
  else
    match es[i]? with
    | none => acc
    | some e =>
      if (px - e.x) * (px - e.x) + (py - e.y) * (py - e.y) <
          (pr + e.radius) * (pr + e.radius) then
        if e.radius < pr then (i :: acc.1, acc.2.1, false)
        else if e.type ≠ EntityType.food ∧ prot = 0 then
          if acc.2.1 = true then (i :: acc.1, false, false)
          else (acc.1, acc.2.1, true)
        else acc
      else acc

/-- The player-entity collision phase of one tick, on a tick where no
projectile is in flight and no shot is fired (the projectile segment,
part_005 lines 698-731, then leaves every entity unmarked) and no entity
enters the tick already marked: the nearby query (line 565), the collision
loop iterated from the last index down to `0` (line 568), and the batched
removal `this.entities = this.entities.filter(e => !e.markedForDeath)`
(line 734).  Returns `none` when a lethal contact aborts the tick — the
batched removal then does not run, and the entity list is handed to
`gameOver`/`respawn` (claim C9). -/
def collisionPhase (pr px py : ℚ) (prot : ℕ) (shield : Bool)
    (es : List EntityRec) : Option (List EntityRec) :=
  let r := (gridNearbyIdx es px py).reverse.foldl
    (collideStep es pr px py prot) ([], shield, false)
  if r.2.2 = true then none
  else some (((es.enum).filter fun p => ! decide (p.1 ∈ r.1)).map Prod.snd)

/-- The eat condition of part_005 lines 578-579 at index `i`: the circles
overlap and the player outsizes the entity. -/
def eatCondAt (es : List EntityRec) (pr px py : ℚ) (i : ℕ) : Prop :=
  ∃ e, es[i]? = some e ∧
    (px - e.x) * (px - e.x) + (py - e.y) * (py - e.y) <
      (pr + e.radius) * (pr + e.radius) ∧ e.radius < pr

/-- A lethal contact at index `i` (part_005 line 636): overlap with a non-food
entity at least as large as the player, with spawn protection expired. -/
def lethalCondAt (es : List EntityRec) (pr px py : ℚ) (prot : ℕ) (i : ℕ) : Prop :=
  ∃ e, es[i]? = some e ∧
    (px - e.x) * (px - e.x) + (py - e.y) * (py - e.y) <
      (pr + e.radius) * (pr + e.radius) ∧ ¬ e.radius < pr ∧
    e.type ≠ EntityType.food ∧ prot = 0

/-- The collision loop, run over any index list free of lethal contacts and
with no shield active, never aborts and marks exactly the indices satisfying
the eat condition (in addition to those already marked). -/
theorem collideStep_fold (es : List EntityRec) (pr px py : ℚ) (prot : ℕ) :
    ∀ L : List ℕ, (∀ i ∈ L, ¬ lethalCondAt es pr px py prot i) →
    ∀ m : List ℕ,
      ∃ m', L.foldl (collideStep es pr px py prot) (m, false, false) =
          (m', false, false) ∧
        ∀ j, j ∈ m' ↔ j ∈ m ∨ (j ∈ L ∧ eatCondAt es pr px py j) := by
  intro L
  induction L with
  | nil =>
    intro _ m
    exact ⟨m, rfl, by simp⟩
  | cons i L ih =>
    intro hL m
    have hi : ¬ lethalCondAt es pr px py prot i := hL i (List.mem_cons_self i L)
    have hL' : ∀ j ∈ L, ¬ lethalCondAt es pr px py prot j :=
      fun j hj => hL j (List.mem_cons_of_mem i hj)
    rw [List.foldl_cons]
    cases hget : es[i]? with
    | none =>
      have hstep : collideStep es pr px py prot (m, false, false) i =
          (m, false, false) := by
        unfold collideStep
        rw [if_neg (by simp), hget]
      rw [hstep]
      obtain ⟨m', hfold, hchar⟩ := ih hL' m
      refine ⟨m', hfold, fun j => ?_⟩
      rw [hchar j, List.mem_cons]
      have hnoeat : j = i → ¬ eatCondAt es pr px py j := by
        rintro rfl ⟨e, he, -⟩
        rw [hget] at he
        exact Option.noConfusion he
      tauto
    | some e =>
      by_cases hover : (px - e.x) * (px - e.x) + (py - e.y) * (py - e.y) <
          (pr + e.radius) * (pr + e.radius)
      · by_cases hlt : e.radius < pr
        · have hstep : collideStep es pr px py prot (m, false, false) i =
              (i :: m, false, false) := by
            unfold collideStep
            rw [if_neg (by simp), hget]
            dsimp only
            rw [if_pos hover, if_pos hlt]
          rw [hstep]
          obtain ⟨m', hfold, hchar⟩ := ih hL' (i :: m)
          refine ⟨m', hfold, fun j => ?_⟩
          rw [hchar j, List.mem_cons, List.mem_cons]
          have heat : eatCondAt es pr px py i := ⟨e, hget, hover, hlt⟩
          constructor
          · rintro ((rfl | hm) | hrest)
            · exact Or.inr ⟨Or.inl rfl, heat⟩
            · exact Or.inl hm
            · exact Or.inr ⟨Or.inr hrest.1, hrest.2⟩
          · rintro (hm | ⟨(rfl | hmem), hec⟩)
            · exact Or.inl (Or.inr hm)
            · exact Or.inl (Or.inl rfl)
            · exact Or.inr ⟨hmem, hec⟩
        · have hguard : ¬ (e.type ≠ EntityType.food ∧ prot = 0) := by
            intro hg
            exact hi ⟨e, hget, hover, hlt, hg⟩
          have hstep : collideStep es pr px py prot (m, false, false) i =
              (m, false, false) := by
            unfold collideStep
            rw [if_neg (by simp), hget]
            dsimp only
            rw [if_pos hover, if_neg hlt, if_neg hguard]
          rw [hstep]
          obtain ⟨m', hfold, hchar⟩ := ih hL' m
          refine ⟨m', hfold, fun j => ?_⟩
          rw [hchar j, List.mem_cons]
          have hnoeat : j = i → ¬ eatCondAt es pr px py j := by
            rintro rfl ⟨e', he', _, hlt'⟩
            rw [hget] at he'
            cases he'
            exact hlt hlt'
          tauto
      · have hstep : collideStep es pr px py prot (m, false, false) i =
            (m, false, false) := by
          unfold collideStep
          rw [if_neg (by simp), hget]
          dsimp only
          rw [if_neg hover]
        rw [hstep]
        obtain ⟨m', hfold, hchar⟩ := ih hL' m
        refine ⟨m', hfold, fun j => ?_⟩
        rw [hchar j, List.mem_cons]
        have hnoeat : j = i → ¬ eatCondAt es pr px py j := by
          rintro rfl ⟨e', he', hover', _⟩
          rw [hget] at he'
          cases he'
          exact hover hover'
        tauto

/-- C1 counterexample: the claimed eat rule fails because the collision loop
only sees entities returned by the 3×3 spatial query.  A player of radius 400
at `(100, 100)` and a prey of radius 350 at `(800, 100)` overlap
(`distance 700 < 750`) and the player outsizes the prey, so the claim says the
prey is removed on this tick — but its cell `(2, 0)` is outside the 3×3 block
around the player's cell `(0, 0)`, so the tick's collision phase leaves the
entity list unchanged. -/
theorem C1_counterexample :
    ((100 - 800 : ℚ) * (100 - 800) + (100 - 100) * (100 - 100) <
        (400 + 350) * (400 + 350) ∧ (350 : ℚ) < 400) ∧
    collisionPhase 400 100 100 0 false
        [{ type := EntityType.prey, x := 800, y := 100, radius := 350 }] =
      some [{ type := EntityType.prey, x := 800, y := 100, radius := 350 }] := by
  constructor
  · constructor <;> norm_num
  · have hf1 : (⌊(100 : ℚ) / 300⌋ : ℤ) = 0 := by
      rw [Int.floor_eq_iff]
      norm_num
    have hf2 : (⌊(800 : ℚ) / 300⌋ : ℤ) = 2 := by
      rw [Int.floor_eq_iff]
      norm_num
    have hc1 : cellOf (100 : ℚ) 100 = (0, 0) := by
      unfold cellOf
      rw [hf1]
    have hc2 : cellOf (800 : ℚ) 100 = (2, 0) := by
      unfold cellOf
      rw [hf1, hf2]
    have henum : ([{ type := EntityType.prey, x := 800, y := 100, radius := 350 }] :
        List EntityRec).enum =
        [(0, { type := EntityType.prey, x := 800, y := 100, radius := 350 })] := rfl
    have hnear : gridNearbyIdx
        [{ type := EntityType.prey, x := 800, y := 100, radius := 350 }] 100 100 = [] := by
      simp [gridNearbyIdx, nearOffsets, henum, List.filter_cons, hc1, hc2,
        -Prod.mk_zero_zero]
    unfold collisionPhase
    rw [hnear]
    simp [henum, List.filter_cons]

/-- C1 amended: on a tick of a running, unpaused session on which no shield is
active, no projectile is in flight or fired, no entity is already marked, and
no nearby contact is lethal, the batched removal runs and an entity is removed
exactly when it is among the entities returned by the 3×3 spatial query around
the player and `distance² < (player.radius + entity.radius)²` and
`player.radius > entity.radius` hold at the tick's collision check. -/
theorem C1_amended (pr px py : ℚ) (prot : ℕ) (shield : Bool)
    (es : List EntityRec) (hshield : shield = false)
    (hsafe : ∀ i ∈ gridNearbyIdx es px py, ¬ lethalCondAt es pr px py prot i) :
    collisionPhase pr px py prot shield es =
      some (((es.enum).filter fun p =>
        ! decide (p.1 ∈ gridNearbyIdx es px py ∧
          (px - p.2.x) * (px - p.2.x) + (py - p.2.y) * (py - p.2.y) <
            (pr + p.2.radius) * (pr + p.2.radius) ∧ p.2.radius < pr)).map
        Prod.snd) := by
  subst hshield
  have hsafe' : ∀ i ∈ (gridNearbyIdx es px py).reverse,
      ¬ lethalCondAt es pr px py prot i := by
    intro i hi
    exact hsafe i (List.mem_reverse.mp hi)
  obtain ⟨m', hfold, hchar⟩ :=
    collideStep_fold es pr px py prot (gridNearbyIdx es px py).reverse hsafe' []
  simp only [collisionPhase]
  rw [hfold]
  rw [if_neg (by simp)]
  congr 1
  congr 1
  apply List.filter_congr
  intro p hp
  have hpget : es[p.1]? = some p.2 := List.mem_enum_iff_getElem?.mp hp
  have hiff : p.1 ∈ m' ↔
      (p.1 ∈ gridNearbyIdx es px py ∧
        (px - p.2.x) * (px - p.2.x) + (py - p.2.y) * (py - p.2.y) <
          (pr + p.2.radius) * (pr + p.2.radius) ∧ p.2.radius < pr) := by
    rw [hchar p.1, List.mem_reverse]
    simp only [List.not_mem_nil, false_or]
    constructor
    · rintro ⟨hmem, e, he, hover, hlt⟩
      rw [hpget] at he
      cases he
      exact ⟨hmem, hover, hlt⟩
    · rintro ⟨hmem, hover, hlt⟩
      exact ⟨hmem, p.2, hpget, hover, hlt⟩
  rw [decide_eq_decide.mpr hiff]

/-- C1 witness: the spec's own worked example — player radius 15 at
`(100, 100)`, food entity radius 10 at `(100, 120)`: distance 20 < 25 and
15 > 10, so the tick's collision phase removes the entity. -/
theorem C1_witness :
    collisionPhase 15 100 100 0 false
        [{ type := EntityType.food, x := 100, y := 120, radius := 10 }] =
      some [] := by
  have hf1 : (⌊(100 : ℚ) / 300⌋ : ℤ) = 0 := by
    rw [Int.floor_eq_iff]
    norm_num
  have hf2 : (⌊(120 : ℚ) / 300⌋ : ℤ) = 0 := by
    rw [Int.floor_eq_iff]
    norm_num
  have hc1 : cellOf (100 : ℚ) 100 = (0, 0) := by
    unfold cellOf
    rw [hf1]
  have hc2 : cellOf (100 : ℚ) 120 = (0, 0) := by
    unfold cellOf
    rw [hf1, hf2]
  have henum : ([{ type := EntityType.food, x := 100, y := 120, radius := 10 }] :
      List EntityRec).enum =
      [(0, { type := EntityType.food, x := 100, y := 120, radius := 10 })] := rfl
  have hnear : gridNearbyIdx
      [{ type := EntityType.food, x := 100, y := 120, radius := 10 }] 100 100 = [0] := by
    simp [gridNearbyIdx, nearOffsets, henum, List.filter_cons, hc1, hc2,
      -Prod.mk_zero_zero]
  have hsafe : ∀ i ∈ gridNearbyIdx
      [{ type := EntityType.food, x := 100, y := 120, radius := 10 }] 100 100,
      ¬ lethalCondAt [{ type := EntityType.food, x := 100, y := 120, radius := 10 }]
        15 100 100 0 i := by
    intro i hi
    rw [hnear] at hi
    simp only [List.mem_singleton] at hi
    subst hi
    intro hl
    unfold lethalCondAt at hl
    obtain ⟨e, he, -, hlt, -⟩ := hl
    rw [List.getElem?_cons_zero] at he
    cases he
    exact hlt (by norm_num)
  rw [C1_amended 15 100 100 0 false
    [{ type := EntityType.food, x := 100, y := 120, radius := 10 }] rfl hsafe, hnear, henum]
  norm_num [List.filter_cons]

/-! ## One tick with no input (claim C8)

`Player.update` (`src/src/game/Player.ts` lines 127-173) calls the host's
`Math.atan2`, `Math.cos` and `Math.sin`, so this part of the model lives over
`ℝ` with Mathlib's real functions.  The `Player` constructor (lines 105-118)
is `x = y = worldSize / 2 = 2000`, `angle = 0`, `radius = startRadius = 15`,
`ink = maxInk = 100` (the claim's scenario has neutral shop multipliers, so
`start()`'s multiplier application leaves these values).  `start()` also
resets the input target to the player position (part_005 lines 336-337), and
on a tick with no input `input.active`, `keys.dash` and `usingKeyboard` are
all false, so `updatePhysics` reaches
`this.player.update(this.input.x, this.input.y, false)` (part_005 lines
504-506, 737).  The tentacle and glow updates (Player.ts lines 156-170) read
and write only cosmetic state, so they are not part of the player state here.
`Player.update` reads `CONFIG.player.baseSpeed = 5.5` and
`CONFIG.player.dashSpeed = 13` directly.
-/

noncomputable section

/-- The host's `Math.atan2 y x` on non-NaN arguments (signed zeros do not
arise over `ℝ`; `Math.atan2(0, 0) = 0`). -/
def atan2 (y x : ℝ) : ℝ :=
  if 0 < x then Real.arctan (y / x)
  else if x < 0 ∧ 0 ≤ y then Real.arctan (y / x) + Real.pi
  else if x < 0 ∧ y < 0 then Real.arctan (y / x) - Real.pi
  else if x = 0 ∧ 0 < y then Real.pi / 2
  else if x = 0 ∧ y < 0 then -(Real.pi / 2)
  else 0

/-- The two angle-normalisation loops of `Player.update` (Player.ts lines
133-135):

    while (diff > Math.PI) diff -= Math.PI * 2;
    while (diff < -Math.PI) diff += Math.PI * 2;

in closed form: when `diff > π` the first loop subtracts `2π` exactly
`⌈(diff - π) / (2π)⌉` times — the least count bringing the value to at most
`π`, which then also lies above `-π`, so the second loop does not run — and
symmetrically when `diff < -π`. -/
def normAngleDiff (d : ℝ) : ℝ :=
  if Real.pi < d then d - 2 * Real.pi * ⌈(d - Real.pi) / (2 * Real.pi)⌉
  else if d < -Real.pi then d + 2 * Real.pi * ⌈(-Real.pi - d) / (2 * Real.pi)⌉
  else d

/-- The player state read and written by `Player.update`'s movement and ink
logic. -/
structure PlayerState where
  x : ℝ
  y : ℝ
  angle : ℝ
  radius : ℝ
  ink : ℝ

/-- Source `new Player()` (Player.ts lines 105-118) with neutral shop multipliers. -/
def Player.init : PlayerState :=
  { x := 2000, y := 2000, angle := 0, radius := 15, ink := 100 }

/-- Source `Player.update` (Player.ts lines 127-173): turn toward the input target
with exponential smoothing (`angle += diff * 0.1`), dash at speed 13 spending
`1.8` ink when the input is active and `ink > 1`, otherwise move at the base
speed `5.5` and regenerate `0.45` ink up to `100`; always advance along the
heading and clamp to the world square `[0, 4000]²`.  Returns the new state and
the dashing flag. -/
def Player.update (inputX inputY : ℝ) (isInputActive : Bool) (p : PlayerState) :
    PlayerState × Bool :=
  let targetAngle := atan2 (inputY - p.y) (inputX - p.x)
  let angle := p.angle + normAngleDiff (targetAngle - p.angle) * 0.1
  if isInputActive = true ∧ 1 < p.ink then
    ({ x := max 0 (min (p.x + Real.cos angle * 13) 4000),
       y := max 0 (min (p.y + Real.sin angle * 13) 4000),
       angle := angle, radius := p.radius, ink := p.ink - 1.8 }, true)
  else
    ({ x := max 0 (min (p.x + Real.cos angle * 5.5) 4000),
       y := max 0 (min (p.y + Real.sin angle * 5.5) 4000),
       angle := angle, radius := p.radius, ink := min (p.ink + 0.45) 100 }, false)

/-- C8 counterexample: the claim says one tick with no input leaves the player
position unchanged (zero velocity), but `Player.update` moves the player along
its heading at base speed unconditionally: the freshly started player's `x`
advances from `2000` to `2005.5`. -/
theorem C8_counterexample :
    (Player.update 2000 2000 false Player.init).1.x ≠ Player.init.x := by
  have hpi := Real.pi_pos
  have hatan : atan2 (0 : ℝ) 0 = 0 := by
    unfold atan2
    norm_num
  have hnorm : normAngleDiff 0 = 0 := by
    unfold normAngleDiff
    rw [if_neg (by linarith), if_neg (by linarith)]
  unfold Player.update Player.init
  norm_num [hatan, hnorm]

/-- C8 amended: after one tick with no input the ink regenerates capped at
`maxInk` (it stays `100`), but the position does not stay put: the player
advances `baseSpeed = 5.5` along its heading `0`, from `(2000, 2000)` to
`(2005.5, 2000)`, and is not dashing. -/
theorem C8_amended :
    Player.update 2000 2000 false Player.init =
      ({ x := 2005.5, y := 2000, angle := 0, radius := 15, ink := 100 },
        false) := by
  have hpi := Real.pi_pos
  have hatan : atan2 (0 : ℝ) 0 = 0 := by
    unfold atan2
    norm_num
  have hnorm : normAngleDiff 0 = 0 := by
    unfold normAngleDiff
    rw [if_neg (by linarith), if_neg (by linarith)]
  unfold Player.update Player.init
  norm_num [hatan, hnorm, min_def, max_def]

end

end AbyssalHunter
